import Mathlib

/-!
# Verification of the MAE dataset-assembly module (`datasets.py`)

Shallow embedding of `src/MAE-pytorch/datasets.py`: the transform builder,
dataset selector, pretraining data augmentation, and the saliency sample
wrapper, together with proofs about the specified properties.

External collaborators (torchvision transforms, timm's `create_transform`,
the wilds loader) are kept abstract: a transform pipeline is a symbolic list
of steps, and image application is an abstract function passed in by the
caller.  Repository modules that are referenced but whose source is not part
of the package under verification (`masking_generator.RandomMaskingGenerator`,
`saliency_mask.SaliencyMaskGenerator`, `dataset_folder.ImageFolder`) are
modelled from the specification, as marked in their doc comments.
-/

set_option maxHeartbeats 1000000

deriving instance DecidableEq for Except

namespace SaliencyMae

/-- The two normalization statistics presets imported from `timm.data.constants`:
`IMAGENET_DEFAULT_*` and `IMAGENET_INCEPTION_*`.  Their numeric contents are
irrelevant to the pipeline structure, so they stay symbolic. -/
inductive NormPreset
  | imagenetDefault
  | inception
deriving DecidableEq, Repr

/-- Source: `mean = IMAGENET_INCEPTION_MEAN if not imagenet_default_mean_and_std else
IMAGENET_DEFAULT_MEAN` (appears verbatim in `DataAugmentationForMAE.__init__`
and in `build_transform`). -/
def pickMean (imagenet_default_mean_and_std : Bool) : NormPreset :=
  if imagenet_default_mean_and_std then .imagenetDefault else .inception

/-- Source: `std = IMAGENET_INCEPTION_STD if not imagenet_default_mean_and_std else
IMAGENET_DEFAULT_STD` (appears verbatim in `DataAugmentationForMAE.__init__`
and in `build_transform`). -/
def pickStd (imagenet_default_mean_and_std : Bool) : NormPreset :=
  if imagenet_default_mean_and_std then .imagenetDefault else .inception

/-- A single torchvision transform step, as constructed by `datasets.py`.
`Resize` records the target size and the numeric interpolation mode
(`interpolation=3` is PIL bicubic). -/
inductive Transform
  | Resize (size : ℤ) (interp : ℕ)
  | CenterCrop (size : ℤ)
  | RandomResizedCrop (size : ℤ)
  | RandomCrop (size : ℤ) (padding : ℕ)
  | ToTensor
  | Normalize (mean std : NormPreset)
deriving DecidableEq, Repr

/-- The result of `build_transform`: either the opaque pipeline returned by
timm's `create_transform` (recording the arguments it was invoked with, and
the optional replacement of its first step by a `RandomCrop` for small
inputs), or an explicit `transforms.Compose` list. -/
inductive Pipeline
  | timm (input_size : ℤ) (color_jitter : ℚ) (aa : String) (interp : String)
      (reprob : ℚ) (remode : String) (recount : ℕ) (mean std : NormPreset)
      (firstReplaced : Option Transform)
  | compose (steps : List Transform)
deriving DecidableEq, Repr

/-- The configuration namespace (`args`) as consumed by `datasets.py`:
exactly the attributes the module reads (and, for `crop_pct`, writes). -/
structure Args where
  input_size : ℤ
  imagenet_default_mean_and_std : Bool
  data_set : String
  data_path : String
  eval_data_path : String
  nb_classes : ℕ
  crop_pct : Option ℚ
  color_jitter : ℚ
  aa : String
  train_interpolation : String
  reprob : ℚ
  remode : String
  recount : ℕ
  window_size : ℕ × ℕ
  mask_ratio : ℚ
  att_root : String
deriving DecidableEq, Repr

/-- Python `int()` applied to an exact rational: truncation toward zero. -/
def pyInt (q : ℚ) : ℤ := q.num.tdiv q.den

/-- The function `build_transform(is_train, args)`.  Returns the constructed pipeline
together with the configuration object as it stands after the call (the
source assigns `args.crop_pct` in place when it is `None` in the
eval-with-resize branch). -/
def build_transform (is_train : Bool) (args : Args) : Pipeline × Args :=
  let resize_im := args.input_size > 32
  let mean := pickMean args.imagenet_default_mean_and_std
  let std := pickStd args.imagenet_default_mean_and_std
  if is_train then
    (Pipeline.timm args.input_size args.color_jitter args.aa
      args.train_interpolation args.reprob args.remode args.recount mean std
      (if resize_im then none else some (Transform.RandomCrop args.input_size 4)),
     args)
  else if resize_im then
    let cp : ℚ :=
      match args.crop_pct with
      | some c => c
      | none => if args.input_size < 384 then 224 / 256 else 1
    let args1 := { args with crop_pct := some cp }
    let size : ℤ := pyInt ((args.input_size : ℚ) / cp)
    (Pipeline.compose [Transform.Resize size 3, Transform.CenterCrop args.input_size,
      Transform.ToTensor, Transform.Normalize mean std], args1)
  else
    (Pipeline.compose [Transform.ToTensor, Transform.Normalize mean std], args)

/-- C2: with `is_train=False`, `input_size=224` and `crop_pct=None`,
`build_transform` sets `crop_pct` to `224/256`, resizes to
`int(224/(224/256)) = 256` with bicubic interpolation (mode 3), center-crops
to 224, and ends with tensor conversion and normalization; in general, for
`input_size > 32` and `crop_pct=None` the default is `224/256` below 384 and
`1.0` from 384 on, with resize target `int(input_size/crop_pct)`. -/
theorem build_transform_eval_resize_default (args : Args)
    (hc : args.crop_pct = none) :
    (args.input_size = 224 →
      (build_transform false args).1 =
        Pipeline.compose [Transform.Resize 256 3, Transform.CenterCrop 224,
          Transform.ToTensor,
          Transform.Normalize (pickMean args.imagenet_default_mean_and_std)
            (pickStd args.imagenet_default_mean_and_std)] ∧
      (build_transform false args).2.crop_pct = some (224 / 256)) ∧
    (32 < args.input_size →
      (build_transform false args).2.crop_pct =
        some (if args.input_size < 384 then (224 : ℚ) / 256 else 1) ∧
      (build_transform false args).1 =
        Pipeline.compose [
          Transform.Resize (pyInt ((args.input_size : ℚ) /
            (if args.input_size < 384 then (224 : ℚ) / 256 else 1))) 3,
          Transform.CenterCrop args.input_size, Transform.ToTensor,
          Transform.Normalize (pickMean args.imagenet_default_mean_and_std)
            (pickStd args.imagenet_default_mean_and_std)]) := by
  constructor
  · intro h224
    refine ⟨?_, ?_⟩ <;>
      · simp only [build_transform, hc, h224]
        norm_num [pyInt]
  · intro h32
    constructor
    · simp only [build_transform, if_neg (Bool.false_ne_true), if_pos h32, hc]
    · simp only [build_transform, if_neg (Bool.false_ne_true), if_pos h32, hc]

/-- Witness for `build_transform_eval_resize_default` at a concrete
configuration with `input_size = 224` and `crop_pct = None`. -/
theorem build_transform_eval_resize_default_witness :
    (build_transform false
        { input_size := 224, imagenet_default_mean_and_std := true,
          data_set := "IMNET", data_path := "d", eval_data_path := "e",
          nb_classes := 1000, crop_pct := none, color_jitter := 0.4,
          aa := "rand", train_interpolation := "bicubic", reprob := 0.25,
          remode := "pixel", recount := 1, window_size := (14, 14),
          mask_ratio := 0.75, att_root := "att" }).1 =
      Pipeline.compose [Transform.Resize 256 3, Transform.CenterCrop 224,
        Transform.ToTensor,
        Transform.Normalize NormPreset.imagenetDefault NormPreset.imagenetDefault] := by
  have h := build_transform_eval_resize_default
    { input_size := 224, imagenet_default_mean_and_std := true,
      data_set := "IMNET", data_path := "d", eval_data_path := "e",
      nb_classes := 1000, crop_pct := none, color_jitter := 0.4,
      aa := "rand", train_interpolation := "bicubic", reprob := 0.25,
      remode := "pixel", recount := 1, window_size := (14, 14),
      mask_ratio := 0.75, att_root := "att" } rfl
  exact (h.1 rfl).1

/-- C3: with `is_train=False` and `input_size ≤ 32`, the returned pipeline has
no resize and no crop step: it is exactly tensor conversion followed by
normalization with the preset selected by `imagenet_default_mean_and_std`. -/
theorem build_transform_eval_small_input (args : Args)
    (h : args.input_size ≤ 32) :
    (build_transform false args).1 =
      Pipeline.compose [Transform.ToTensor,
        Transform.Normalize (pickMean args.imagenet_default_mean_and_std)
          (pickStd args.imagenet_default_mean_and_std)] := by
  have hr : ¬ (args.input_size > 32) := not_lt.2 h
  simp only [build_transform, if_neg (Bool.false_ne_true), if_neg hr]

/-- Witness for `build_transform_eval_small_input` at `input_size = 32`. -/
theorem build_transform_eval_small_input_witness :
    (build_transform false
        { input_size := 32, imagenet_default_mean_and_std := false,
          data_set := "CIFAR", data_path := "d", eval_data_path := "e",
          nb_classes := 100, crop_pct := none, color_jitter := 0.4,
          aa := "rand", train_interpolation := "bicubic", reprob := 0.25,
          remode := "pixel", recount := 1, window_size := (4, 4),
          mask_ratio := 0.75, att_root := "att" }).1 =
      Pipeline.compose [Transform.ToTensor,
        Transform.Normalize NormPreset.inception NormPreset.inception] :=
  build_transform_eval_small_input
    { input_size := 32, imagenet_default_mean_and_std := false,
      data_set := "CIFAR", data_path := "d", eval_data_path := "e",
      nb_classes := 100, crop_pct := none, color_jitter := 0.4,
      aa := "rand", train_interpolation := "bicubic", reprob := 0.25,
      remode := "pixel", recount := 1, window_size := (4, 4),
      mask_ratio := 0.75, att_root := "att" } (by norm_num)

/-- A concrete evaluation configuration with `crop_pct` unset, used to
exhibit the in-place `args.crop_pct` assignment in `build_transform`. -/
def argsC4 : Args :=
  { input_size := 224, imagenet_default_mean_and_std := true,
    data_set := "IMNET", data_path := "d", eval_data_path := "e",
    nb_classes := 1000, crop_pct := none, color_jitter := 0,
    aa := "rand", train_interpolation := "bicubic", reprob := 0,
    remode := "pixel", recount := 1, window_size := (14, 14),
    mask_ratio := 0, att_root := "att" }

/-- C4 counterexample: `build_transform(False, args)` with `input_size=224`
and `crop_pct=None` writes `args.crop_pct = 224/256` in place, so the
configuration is NOT left unchanged. -/
theorem build_transform_mutates_crop_pct :
    (build_transform false argsC4).2.crop_pct = some (224 / 256) ∧
    argsC4.crop_pct = none ∧
    (build_transform false argsC4).2 ≠ argsC4 := by
  refine ⟨rfl, rfl, ?_⟩
  intro h
  have h2 := congrArg Args.crop_pct h
  rw [show (build_transform false argsC4).2.crop_pct = some (224 / 256) from rfl,
    show argsC4.crop_pct = none from rfl] at h2
  exact Option.noConfusion h2

/-- Helper: the only configuration field `build_transform` can change is
`crop_pct`. -/
theorem build_transform_only_crop_pct (is_train : Bool) (args : Args) :
    (build_transform is_train args).2 =
      { args with crop_pct := (build_transform is_train args).2.crop_pct } := by
  cases is_train with
  | true => rfl
  | false =>
    by_cases hr : args.input_size > 32
    · simp only [build_transform, if_neg (Bool.false_ne_true), if_pos hr]
    · simp only [build_transform, if_neg (Bool.false_ne_true), if_neg hr]

/-- C4 amended: `build_transform` changes no configuration field other than
`crop_pct`; the configuration is returned entirely unchanged whenever
`is_train` is true, `input_size ≤ 32`, or `crop_pct` was already set; and in
the remaining case (`is_train=False`, `input_size > 32`, `crop_pct=None`) the
single mutation is `crop_pct := 224/256` (below 384) or `1.0` (otherwise). -/
theorem build_transform_config_frame (is_train : Bool) (args : Args) :
    ((build_transform is_train args).2 =
      { args with crop_pct := (build_transform is_train args).2.crop_pct }) ∧
    ((is_train = true ∨ args.input_size ≤ 32 ∨ args.crop_pct ≠ none) →
      (build_transform is_train args).2 = args) ∧
    (is_train = false → 32 < args.input_size → args.crop_pct = none →
      (build_transform is_train args).2.crop_pct =
        some (if args.input_size < 384 then (224 : ℚ) / 256 else 1)) := by
  refine ⟨build_transform_only_crop_pct is_train args, ?_, ?_⟩
  · intro h
    cases is_train with
    | true => rfl
    | false =>
      rcases h with h | h | h
      · exact absurd h Bool.false_ne_true
      · have hr : ¬ (args.input_size > 32) := not_lt.2 h
        simp only [build_transform, if_neg (Bool.false_ne_true), if_neg hr]
      · obtain ⟨c, hc⟩ := Option.ne_none_iff_exists'.mp h
        by_cases hr : args.input_size > 32
        · simp only [build_transform, if_neg (Bool.false_ne_true), if_pos hr, hc]
          cases args
          simp_all
        · simp only [build_transform, if_neg (Bool.false_ne_true), if_neg hr]
  · intro ht hr hc
    subst ht
    simp only [build_transform, if_neg (Bool.false_ne_true), if_pos hr, hc]

/-- Witness for `build_transform_config_frame`: on a training call the
configuration comes back unchanged, and on the eval call of `argsC4` the
mutation writes exactly `224/256`. -/
theorem build_transform_config_frame_witness :
    (build_transform true argsC4).2 = argsC4 ∧
    (build_transform false argsC4).2.crop_pct =
      some (if argsC4.input_size < 384 then (224 : ℚ) / 256 else 1) :=
  ⟨(build_transform_config_frame true argsC4).2.1 (Or.inl rfl),
   (build_transform_config_frame false argsC4).2.2 rfl (by norm_num [argsC4]) rfl⟩

/-- Python exceptions surfaced by the module (assertion failures,
`NotImplementedError`, missing files, bad indices, undecodable or
wrongly-sized saliency maps, missing attributes). -/
inductive PyError
  | assertionError
  | notImplementedError
  | fileNotFoundError
  | indexError
  | formatError
  | attributeError
deriving DecidableEq, Repr

/-- The dataset handle returned by `build_dataset`: which loader was chosen,
with its root, split and bound transform. -/
inductive Dataset
  | cifar100 (root : String) (train : Bool) (tf : Pipeline)
  | tvImageFolder (root : String) (tf : Pipeline)
  | localImageFolder (root : String) (tf : Pipeline)
  | iwildcamSubset (root split : String) (tf : Pipeline)
deriving DecidableEq, Repr

/-- The parts of the execution environment `build_dataset` observes: the
number of classes the folder-per-class scan discovers at a root
(`len(dataset.class_to_idx)` of `dataset_folder.ImageFolder`), and the class
count reported by the wilds iwildcam loader (`dataset._n_classes`). -/
structure FsEnv where
  imageFolderClasses : String → ℕ
  iwildcamClasses : String → ℕ

/-- The function `build_dataset(is_train, args)`.  Dispatches on `args.data_set`, asserts
the branch-specific class-count checks, and always ends with
`assert nb_classes == args.nb_classes`.  Python `assert` failures are
modelled as `PyError.assertionError`; the fallthrough raise as
`PyError.notImplementedError`. -/
def build_dataset (is_train : Bool) (args0 : Args) (env : FsEnv) :
    Except PyError (Dataset × ℕ) :=
  let tf_args := build_transform is_train args0
  let tf := tf_args.1
  let args := tf_args.2
  let branch : Except PyError (Dataset × ℕ) :=
    if args.data_set = "CIFAR" then
      .ok (.cifar100 args.data_path is_train tf, 100)
    else if args.data_set = "IMNET" then
      .ok (.tvImageFolder (args.data_path ++ "/" ++ (if is_train then "train" else "val")) tf, 1000)
    else if args.data_set = "image_folder" then
      let root := if is_train then args.data_path else args.eval_data_path
      if env.imageFolderClasses root = args.nb_classes then
        .ok (.localImageFolder root tf, args.nb_classes)
      else .error .assertionError
    else if args.data_set = "iwildcam" then
      let root := if is_train then args.data_path else args.eval_data_path
      if env.iwildcamClasses root = args.nb_classes then
        .ok (.iwildcamSubset root (if is_train then "train" else "test") tf, args.nb_classes)
      else .error .assertionError
    else .error .notImplementedError
  match branch with
  | .error e => .error e
  | .ok (d, nb) => if nb = args.nb_classes then .ok (d, nb) else .error .assertionError

/-- The `data_set` value does not change across `build_transform` (only
`crop_pct` can), so the dispatch in `build_dataset` reads the caller's
value. -/
theorem build_transform_preserves_data_set (is_train : Bool) (args : Args) :
    (build_transform is_train args).2.data_set = args.data_set := by
  rw [build_transform_only_crop_pct is_train args]

/-- Field `nb_classes` is likewise untouched by `build_transform`. -/
theorem build_transform_preserves_nb_classes (is_train : Bool) (args : Args) :
    (build_transform is_train args).2.nb_classes = args.nb_classes := by
  rw [build_transform_only_crop_pct is_train args]

/-- Field `data_path` is likewise untouched by `build_transform`. -/
theorem build_transform_preserves_data_path (is_train : Bool) (args : Args) :
    (build_transform is_train args).2.data_path = args.data_path := by
  rw [build_transform_only_crop_pct is_train args]

/-- Field `eval_data_path` is likewise untouched by `build_transform`. -/
theorem build_transform_preserves_eval_data_path (is_train : Bool) (args : Args) :
    (build_transform is_train args).2.eval_data_path = args.eval_data_path := by
  rw [build_transform_only_crop_pct is_train args]

/-- C5: `build_dataset` enforces the class-count assertions: a successful
call always returns `num_classes = args.nb_classes`; the CIFAR branch fails
when `args.nb_classes ≠ 100`, the IMNET branch when `≠ 1000`, the
`image_folder` branch when the discovered class count differs from
`args.nb_classes`, and the `iwildcam` branch when the loader's class count
differs from `args.nb_classes`. -/
theorem build_dataset_class_count_checks (is_train : Bool) (args : Args)
    (env : FsEnv) :
    (∀ d n, build_dataset is_train args env = .ok (d, n) → n = args.nb_classes) ∧
    (args.data_set = "CIFAR" → args.nb_classes ≠ 100 →
      build_dataset is_train args env = .error .assertionError) ∧
    (args.data_set = "IMNET" → args.nb_classes ≠ 1000 →
      build_dataset is_train args env = .error .assertionError) ∧
    (args.data_set = "image_folder" →
      env.imageFolderClasses (if is_train then args.data_path else args.eval_data_path)
        ≠ args.nb_classes →
      build_dataset is_train args env = .error .assertionError) ∧
    (args.data_set = "iwildcam" →
      env.iwildcamClasses (if is_train then args.data_path else args.eval_data_path)
        ≠ args.nb_classes →
      build_dataset is_train args env = .error .assertionError) := by
  refine ⟨?_, ?_, ?_, ?_, ?_⟩
  · intro d n h
    simp only [build_dataset, build_transform_preserves_data_set,
      build_transform_preserves_nb_classes, build_transform_preserves_data_path,
      build_transform_preserves_eval_data_path] at h
    repeat' split at h
    all_goals simp_all
  · intro hds hne
    simp [build_dataset, build_transform_preserves_data_set,
      build_transform_preserves_nb_classes, build_transform_preserves_data_path,
      build_transform_preserves_eval_data_path, hds, Ne.symm hne]
  · intro hds hne
    simp [build_dataset, build_transform_preserves_data_set,
      build_transform_preserves_nb_classes, build_transform_preserves_data_path,
      build_transform_preserves_eval_data_path, hds, Ne.symm hne]
  · intro hds hne
    simp [build_dataset, build_transform_preserves_data_set,
      build_transform_preserves_nb_classes, build_transform_preserves_data_path,
      build_transform_preserves_eval_data_path, hds, hne]
  · intro hds hne
    simp [build_dataset, build_transform_preserves_data_set,
      build_transform_preserves_nb_classes, build_transform_preserves_data_path,
      build_transform_preserves_eval_data_path, hds, hne]

/-- A trivial environment for concrete evaluations of `build_dataset`. -/
def envC5 : FsEnv :=
  { imageFolderClasses := fun _ => 6, iwildcamClasses := fun _ => 6 }

/-- Witness for `build_dataset_class_count_checks`: a CIFAR configuration
with `nb_classes = 5` fails the class-count assertion. -/
theorem build_dataset_class_count_checks_witness :
    build_dataset true
        { argsC4 with data_set := "CIFAR", nb_classes := 5 } envC5 =
      .error .assertionError :=
  (build_dataset_class_count_checks true
    { argsC4 with data_set := "CIFAR", nb_classes := 5 } envC5).2.1 rfl
    (by decide)

/-- C6: for any `data_set` value outside the four recognized identifiers,
`build_dataset` raises `NotImplementedError` and does not fall back to a
default dataset. -/
theorem build_dataset_unknown_identifier (is_train : Bool) (args : Args)
    (env : FsEnv) (h1 : args.data_set ≠ "CIFAR") (h2 : args.data_set ≠ "IMNET")
    (h3 : args.data_set ≠ "image_folder") (h4 : args.data_set ≠ "iwildcam") :
    build_dataset is_train args env = .error .notImplementedError := by
  simp only [build_dataset, build_transform_preserves_data_set,
    build_transform_preserves_nb_classes, build_transform_preserves_data_path,
    build_transform_preserves_eval_data_path]
  rw [if_neg h1, if_neg h2, if_neg h3, if_neg h4]

/-- Witness for `build_dataset_unknown_identifier` at `data_set = "bogus"`. -/
theorem build_dataset_unknown_identifier_witness :
    build_dataset false { argsC4 with data_set := "bogus" } envC5 =
      .error .notImplementedError :=
  build_dataset_unknown_identifier false { argsC4 with data_set := "bogus" }
    envC5 (by decide) (by decide) (by decide) (by decide)

/-- Modelled from the spec: `masking_generator.RandomMaskingGenerator` is
imported by `datasets.py` but its source file is not part of the package
under verification.  Spec §4.1: the generator is constructed with
`(grid_height, grid_width, mask_ratio)` and each no-argument invocation
returns a length `grid_height*grid_width` binary mask with exactly
`round(mask_ratio * num_patches)` positions set to 1.  `num_mask` is that
count. -/
def RandomMaskingGenerator.num_mask (h w : ℕ) (mask_ratio : ℚ) : ℕ :=
  (round (mask_ratio * ((h * w : ℕ) : ℚ))).toNat

/-- Modelled from the spec (§4.1): the unshuffled mask,
`num_patches - num_mask` zeros followed by `num_mask` ones. -/
def RandomMaskingGenerator.baseMask (h w : ℕ) (mask_ratio : ℚ) : List ℕ :=
  List.replicate (h * w - RandomMaskingGenerator.num_mask h w mask_ratio) 0 ++
    List.replicate (RandomMaskingGenerator.num_mask h w mask_ratio) 1

/-- Modelled from the spec (§4.1): one invocation of the random masking
generator; the ambient random shuffle is passed in explicitly (a faithful
shuffle returns a permutation of its input). -/
def RandomMaskingGenerator.call (h w : ℕ) (mask_ratio : ℚ)
    (shuffle : List ℕ → List ℕ) : List ℕ :=
  shuffle (RandomMaskingGenerator.baseMask h w mask_ratio)

/-- For `0 ≤ mask_ratio ≤ 1` the rounded mask count is the faithful
`ℕ`-valued image of `round(mask_ratio * num_patches)` and never exceeds the
number of patches. -/
theorem num_mask_bounds (h w : ℕ) (mask_ratio : ℚ)
    (h0 : 0 ≤ mask_ratio) (h1 : mask_ratio ≤ 1) :
    ((RandomMaskingGenerator.num_mask h w mask_ratio : ℤ) =
      round (mask_ratio * ((h * w : ℕ) : ℚ))) ∧
    RandomMaskingGenerator.num_mask h w mask_ratio ≤ h * w := by
  set n : ℕ := h * w with hn
  set x : ℚ := mask_ratio * (n : ℚ) with hx
  have hx0 : 0 ≤ x := mul_nonneg h0 (Nat.cast_nonneg n)
  have hxn : x ≤ (n : ℚ) := by
    calc x = mask_ratio * (n : ℚ) := hx
    _ ≤ 1 * (n : ℚ) := mul_le_mul_of_nonneg_right h1 (Nat.cast_nonneg n)
    _ = (n : ℚ) := one_mul _
  have hlow : (0 : ℤ) ≤ round x := by
    have hq : ((-1 : ℤ) : ℚ) < ((round x : ℤ) : ℚ) := by
      have := sub_half_lt_round x
      push_cast
      linarith
    have : (-1 : ℤ) < round x := by exact_mod_cast hq
    omega
  have hhigh : round x ≤ (n : ℤ) := by
    have hq : ((round x : ℤ) : ℚ) < ((n : ℤ) : ℚ) + 1 := by
      have := round_le_add_half x
      push_cast
      linarith
    have : round x < (n : ℤ) + 1 := by exact_mod_cast hq
    omega
  constructor
  · exact Int.toNat_of_nonneg hlow
  · exact Int.toNat_le.mpr hhigh

/-- C1: for any grid `(h, w)`, any `mask_ratio ∈ [0,1]` and any faithful
shuffle, an invocation of the random masking generator yields a binary mask
of total length `h*w` with exactly `round(mask_ratio*h*w)` ones and
`h*w - round(mask_ratio*h*w)` zeros. -/
theorem random_mask_counts (h w : ℕ) (mask_ratio : ℚ)
    (shuffle : List ℕ → List ℕ) (h0 : 0 ≤ mask_ratio) (h1 : mask_ratio ≤ 1)
    (hs : ∀ l, List.Perm (shuffle l) l) :
    (RandomMaskingGenerator.call h w mask_ratio shuffle).length = h * w ∧
    (RandomMaskingGenerator.call h w mask_ratio shuffle).count 1 =
      RandomMaskingGenerator.num_mask h w mask_ratio ∧
    (RandomMaskingGenerator.call h w mask_ratio shuffle).count 0 =
      h * w - RandomMaskingGenerator.num_mask h w mask_ratio ∧
    ((RandomMaskingGenerator.num_mask h w mask_ratio : ℤ) =
      round (mask_ratio * ((h * w : ℕ) : ℚ))) ∧
    ∀ x ∈ RandomMaskingGenerator.call h w mask_ratio shuffle, x = 0 ∨ x = 1 := by
  obtain ⟨hround, hle⟩ := num_mask_bounds h w mask_ratio h0 h1
  have hperm := hs (RandomMaskingGenerator.baseMask h w mask_ratio)
  refine ⟨?_, ?_, ?_, hround, ?_⟩
  · rw [RandomMaskingGenerator.call, hperm.length_eq]
    simp [RandomMaskingGenerator.baseMask]
    omega
  · rw [RandomMaskingGenerator.call, hperm.count_eq]
    simp [RandomMaskingGenerator.baseMask, List.count_append, List.count_replicate]
  · rw [RandomMaskingGenerator.call, hperm.count_eq]
    simp [RandomMaskingGenerator.baseMask, List.count_append, List.count_replicate]
  · intro x hx
    have hmem := hperm.mem_iff.mp hx
    rcases List.mem_append.mp hmem with hm | hm
    · exact Or.inl (List.eq_of_mem_replicate hm)
    · exact Or.inr (List.eq_of_mem_replicate hm)

/-- Witness for `random_mask_counts` on a 2×2 grid with ratio 1/2 and the
identity shuffle: the mask `[0,0,1,1]` has two ones and two zeros. -/
theorem random_mask_counts_witness :
    (RandomMaskingGenerator.call 2 2 (1 / 2) id).count 1 =
      RandomMaskingGenerator.num_mask 2 2 (1 / 2) ∧
    RandomMaskingGenerator.num_mask 2 2 (1 / 2) = 2 ∧
    (RandomMaskingGenerator.call 2 2 (1 / 2) id).length = 2 * 2 :=
  ⟨(random_mask_counts 2 2 (1 / 2) id (by norm_num) (by norm_num)
      (fun l => List.Perm.refl l)).2.1,
   by norm_num [RandomMaskingGenerator.num_mask]; rfl,
   (random_mask_counts 2 2 (1 / 2) id (by norm_num) (by norm_num)
      (fun l => List.Perm.refl l)).1⟩

/-- Python `os.path.split(path)[-1]`: the component after the last `/` (the whole
path when there is no separator). -/
def lastComponent (cs : List Char) : List Char :=
  cs.foldl (fun acc c => if c = '/' then [] else acc ++ [c]) []

/-- Python `s.split('.')[0]`: the segment before the first `.` (the whole
string when there is no dot, empty for a leading dot). -/
def beforeFirstDot (cs : List Char) : List Char :=
  cs.takeWhile (fun c => c ≠ '.')

/-- The saliency-map filename `ImageFolderWithAttMap.__getitem__` derives
from an image path: `os.path.split(path)[-1].split('.')[0] + '.png'`. -/
def attFileName (path : String) : String :=
  String.mk (beforeFirstDot (lastComponent path.toList) ++ ".png".toList)

/-- Python `os.path.join(a, b)` for the cases arising here: an absolute second
component wins; otherwise concatenate with exactly one separator. -/
def pyJoin (a b : String) : String :=
  if b.toList.head? = some '/' then b
  else if a.toList = [] then b
  else if a.toList.getLast? = some '/' then a ++ b
  else a ++ "/" ++ b

/-- Drop the extension — the suffix from the LAST dot on — when the name
contains a dot.  This renders the claim's words ("taking the image's base
filename, stripping its extension, appending `.png`") for comparison with
the source's first-dot truncation. -/
def dropLastExt (cs : List Char) : List Char :=
  if '.' ∈ cs then ((cs.reverse.dropWhile (fun c => c ≠ '.')).drop 1).reverse
  else cs

/-- The claim's description of the saliency filename: base filename with the
extension stripped, then `".png"`. -/
def specSaliencyName (path : String) : String :=
  String.mk (dropLastExt (lastComponent path.toList) ++ ".png".toList)

/-- Modelled from the spec: `saliency_mask.SaliencyMaskGenerator` is
imported by `datasets.py` but its source file is not part of the package
under verification.  Spec §4.2: patches are ranked by pooled intensity with
a stable tie-break; `rank sal i` counts the patches strictly more intense
than patch `i`, plus the equally intense ones of smaller index. -/
def SaliencyMaskGenerator.rank (sal : List ℚ) (i : ℕ) : ℕ :=
  ((List.range sal.length).filter
    (fun j => decide (sal.getD i 0 < sal.getD j 0 ∨
      (sal.getD j 0 = sal.getD i 0 ∧ j < i)))).length

/-- Modelled from the spec (§4.2): the saliency-driven mask selects the top
`round(mask_ratio * num_patches)` patches by rank. -/
def SaliencyMaskGenerator.specMask (h w : ℕ) (mask_ratio : ℚ) (sal : List ℚ) :
    List ℕ :=
  (List.range (h * w)).map
    (fun i => if SaliencyMaskGenerator.rank sal i <
        RandomMaskingGenerator.num_mask h w mask_ratio then 1 else 0)

/-- Modelled from the spec (§4.2): invoking the saliency generator with a
path.  The filesystem is a partial map from paths to the pooled per-patch
intensities; a missing file is a FileNotFound-type error, a grid-size
mismatch a format error. -/
def SaliencyMaskGenerator.call (ws : ℕ × ℕ) (mask_ratio : ℚ)
    (fs : String → Option (List ℚ)) (path : String) :
    Except PyError (List ℕ) :=
  match fs path with
  | none => .error .fileNotFoundError
  | some sal =>
    if sal.length = ws.1 * ws.2 then
      .ok (SaliencyMaskGenerator.specMask ws.1 ws.2 mask_ratio sal)
    else .error .formatError

/-- A sample value as it flows through a per-sample transform: either a
(transformed) image/tensor, or the `(tensor, mask)` pair produced by the
standard pretraining augmentation. -/
inductive Value (α : Type)
  | img (x : α)
  | pair (x : α) (mask : List ℕ)
deriving DecidableEq

/-- State of `DataAugmentationForMAE(args, standard)`: the composed image transform,
the `standard` flag, and — exactly when `standard` — the random masking
generator constructed with `(args.window_size, args.mask_ratio)`. -/
structure DataAugmentationForMAE where
  transform : List Transform
  standard : Bool
  masked_position_generator : Option ((ℕ × ℕ) × ℚ)

/-- Constructor `DataAugmentationForMAE.__init__`. -/
def DataAugmentationForMAE.build (args : Args) (standard : Bool) :
    DataAugmentationForMAE :=
  { transform := [Transform.RandomResizedCrop args.input_size,
      Transform.ToTensor,
      Transform.Normalize (pickMean args.imagenet_default_mean_and_std)
        (pickStd args.imagenet_default_mean_and_std)]
    standard := standard
    masked_position_generator :=
      if standard then some (args.window_size, args.mask_ratio) else none }

/-- Method `DataAugmentationForMAE.__call__(image)`: the abstract application of a
transform pipeline to an image is passed in as `applyT`, the masking
randomness as `shuffle`.  Reading the generator attribute when it was never
set is a Python `AttributeError`. -/
def DataAugmentationForMAE.call {α : Type} (aug : DataAugmentationForMAE)
    (applyT : List Transform → α → α) (shuffle : List ℕ → List ℕ)
    (image : α) : Except PyError (Value α) :=
  if aug.standard then
    match aug.masked_position_generator with
    | some (ws, r) => .ok (.pair (applyT aug.transform image)
        (RandomMaskingGenerator.call ws.1 ws.2 r shuffle))
    | none => .error .attributeError
  else .ok (.img (applyT aug.transform image))

/-- State of `ImageFolderWithAttMap`: attention-map root, saliency-generator
parameters, the scanned `(path, class-index)` samples, the bound transform
and target transform. -/
structure AttMapDataset (α : Type) where
  att_root : String
  window_size : ℕ × ℕ
  mask_ratio : ℚ
  samples : List (String × ℕ)
  transform : Option (α → Except PyError (Value α))
  target_transform : Option (ℕ → ℕ)

/-- Override `ImageFolderWithAttMap.find_classes`: the override collapsing class
discovery to the single synthetic class `""` at index 0. -/
def ImageFolderWithAttMap.find_classes : List String × List (String × ℕ) :=
  ([""], [("", 0)])

/-- Modelled from the spec: the folder scan of `dataset_folder.ImageFolder`
(whose source file is not part of the package under verification) pairs each
discovered image path with the index of its class; with the overridden
`find_classes` every sample receives the synthetic class index 0. -/
def ImageFolderWithAttMap.make_samples (paths : List String) :
    List (String × ℕ) :=
  paths.map (fun p => (p, (ImageFolderWithAttMap.find_classes.2.getD 0 ("", 0)).2))

/-- Constructor `ImageFolderWithAttMap.__init__` as invoked by
`build_pretraining_dataset`: binds `cfg.att_root`, the saliency-generator
parameters, the scanned samples and the transform; no target transform is
installed. -/
def ImageFolderWithAttMap.build {α : Type} (args : Args)
    (transform : Option (α → Except PyError (Value α)))
    (paths : List String) : AttMapDataset α :=
  { att_root := args.att_root
    window_size := args.window_size
    mask_ratio := args.mask_ratio
    samples := ImageFolderWithAttMap.make_samples paths
    transform := transform
    target_transform := none }

/-- The transform branch of `__getitem__`:
`if self.transform is not None: sample = self.transform(sample)`. -/
def AttMapDataset.applySampleTransform {α : Type} (ds : AttMapDataset α)
    (raw : α) : Except PyError (Value α) :=
  match ds.transform with
  | some t => t raw
  | none => .ok (.img raw)

/-- Method `ImageFolderWithAttMap.__getitem__(index)`: load the image, apply the
bound transform and target transform, derive the saliency filename from the
image path, generate the saliency mask, and return `((sample, mask),
target)`. -/
def AttMapDataset.getitem {α : Type} (ds : AttMapDataset α)
    (loader : String → α) (fs : String → Option (List ℚ)) (index : ℕ) :
    Except PyError ((Value α × List ℕ) × ℕ) :=
  match ds.samples.get? index with
  | none => .error .indexError
  | some (path, t0) =>
    match ds.applySampleTransform (loader path) with
    | .error e => .error e
    | .ok sample =>
      let target := match ds.target_transform with
        | some tt => tt t0
        | none => t0
      match SaliencyMaskGenerator.call ds.window_size ds.mask_ratio fs
          (pyJoin ds.att_root (attFileName path)) with
      | .error e => .error e
      | .ok mask => .ok ((sample, mask), target)

/-- A concrete sample wrapper over a single image whose filename contains
two dots, with no bound transform. -/
def dsC7 : AttMapDataset ℕ :=
  { att_root := "att", window_size := (1, 1), mask_ratio := 1,
    samples := [("imgs/a.b.jpg", 0)], transform := none,
    target_transform := none }

/-- A filesystem that holds the saliency map at the EXTENSION-stripped name
`att/a.b.png` and nowhere else. -/
def fsC7 : String → Option (List ℚ) :=
  fun p => if p = "att/a.b.png" then some [1] else none

/-- C7 counterexample: for the image `imgs/a.b.jpg` the code truncates the
base filename at its FIRST dot (`a.png`), not at the extension (`a.b.png`);
retrieval fails with a file-not-found error even though the saliency file at
the extension-stripped name exists. -/
theorem getitem_first_dot_counterexample :
    attFileName "imgs/a.b.jpg" = "a.png" ∧
    specSaliencyName "imgs/a.b.jpg" = "a.b.png" ∧
    attFileName "imgs/a.b.jpg" ≠ specSaliencyName "imgs/a.b.jpg" ∧
    fsC7 (pyJoin "att" (specSaliencyName "imgs/a.b.jpg")) = some [1] ∧
    dsC7.getitem (fun _ => 0) fsC7 0 = .error .fileNotFoundError := by
  decide

/-- C7 amended: the saliency path is `att_root` joined with the base
filename truncated at its FIRST dot plus `".png"` (which agrees with
extension-stripping for base filenames with at most one dot, e.g.
`foo.jpg ↦ att_root/foo.png`); a missing saliency file makes that sample's
retrieval fail with a FileNotFound-type error, and when the file is present
with a grid-compatible map the sample is returned with the derived mask. -/
theorem getitem_saliency_path (α : Type) (ds : AttMapDataset α)
    (loader : String → α) (fs : String → Option (List ℚ)) (index : ℕ)
    (path : String) (t0 : ℕ) (v : Value α)
    (hidx : ds.samples.get? index = some (path, t0))
    (htr : ds.applySampleTransform (loader path) = .ok v) :
    attFileName "foo.jpg" = "foo.png" ∧
    (fs (pyJoin ds.att_root (attFileName path)) = none →
      ds.getitem loader fs index = .error .fileNotFoundError) ∧
    (∀ sal, fs (pyJoin ds.att_root (attFileName path)) = some sal →
      sal.length = ds.window_size.1 * ds.window_size.2 →
      ds.getitem loader fs index =
        .ok ((v, SaliencyMaskGenerator.specMask ds.window_size.1
            ds.window_size.2 ds.mask_ratio sal),
          match ds.target_transform with
          | some tt => tt t0
          | none => t0)) := by
  refine ⟨rfl, ?_, ?_⟩
  · intro hnone
    simp only [AttMapDataset.getitem, hidx, htr, SaliencyMaskGenerator.call,
      hnone]
  · intro sal hsal hlen
    simp only [AttMapDataset.getitem, hidx, htr, SaliencyMaskGenerator.call,
      hsal, hlen, if_pos trivial]

/-- A concrete sample wrapper for the success/failure witness of the
saliency path lookup. -/
def dsC7b : AttMapDataset ℕ :=
  { att_root := "att", window_size := (1, 1), mask_ratio := 1,
    samples := [("foo.jpg", 0)], transform := none,
    target_transform := none }

/-- Witness for `getitem_saliency_path`: with no saliency file anywhere,
retrieving the sample for `foo.jpg` fails with a file-not-found error. -/
theorem getitem_saliency_path_witness :
    attFileName "foo.jpg" = "foo.png" ∧
    dsC7b.getitem (fun _ => 0) (fun _ => none) 0 =
      .error .fileNotFoundError :=
  ⟨(getitem_saliency_path ℕ dsC7b (fun _ => 0) (fun _ => none) 0 "foo.jpg" 0
      (Value.img 0) rfl rfl).1,
   (getitem_saliency_path ℕ dsC7b (fun _ => 0) (fun _ => none) 0 "foo.jpg" 0
      (Value.img 0) rfl rfl).2.1 rfl⟩

/-- Every sample produced by the wrapper's folder scan carries the
synthetic class index 0. -/
theorem make_samples_label_zero (paths : List String) (index : ℕ)
    (pt : String × ℕ)
    (hg : (ImageFolderWithAttMap.make_samples paths).get? index = some pt) :
    pt.2 = 0 := by
  have hmem : pt ∈ ImageFolderWithAttMap.make_samples paths :=
    List.get?_mem hg
  simp only [ImageFolderWithAttMap.make_samples,
    ImageFolderWithAttMap.find_classes, List.mem_map] at hmem
  obtain ⟨p, _, he⟩ := hmem
  rw [← he]
  rfl

/-- C8: the Sample Wrapper collapses class discovery to the single synthetic
class `""` at index 0, and every successful `__getitem__` returns
`((image_tensor, mask), 0)` — the placeholder label is always 0. -/
theorem wrapper_single_class_label (α : Type) (args : Args)
    (transform : Option (α → Except PyError (Value α))) (paths : List String)
    (loader : String → α) (fs : String → Option (List ℚ)) (index : ℕ)
    (r : (Value α × List ℕ) × ℕ)
    (hok : (ImageFolderWithAttMap.build args transform paths).getitem
      loader fs index = .ok r) :
    r.2 = 0 ∧ ImageFolderWithAttMap.find_classes = ([""], [("", 0)]) := by
  refine ⟨?_, rfl⟩
  simp only [AttMapDataset.getitem, ImageFolderWithAttMap.build] at hok
  split at hok
  · exact Except.noConfusion hok
  · next path t0 hg =>
    have ht0 : t0 = 0 :=
      make_samples_label_zero paths index (path, t0) hg
    split at hok
    · exact Except.noConfusion hok
    · next v htr =>
      split at hok
      · exact Except.noConfusion hok
      · next mask hmask =>
        cases hok
        exact ht0

/-- A concrete pretraining configuration on a 1×1 grid for the wrapper
witnesses. -/
def argsC8 : Args := { argsC4 with window_size := (1, 1), mask_ratio := 1 }

/-- A filesystem holding exactly the saliency map `att/foo.png`. -/
def fsC8 : String → Option (List ℚ) :=
  fun p => if p = "att/foo.png" then some [1] else none

/-- Witness for `wrapper_single_class_label`: retrieving `foo.jpg` through
the wrapper succeeds and the returned label is 0. -/
theorem wrapper_single_class_label_witness :
    (((Value.img (0 : ℕ), SaliencyMaskGenerator.specMask 1 1 1 [1]), 0) :
      (Value ℕ × List ℕ) × ℕ).2 = 0 ∧
    ImageFolderWithAttMap.find_classes = ([""], [("", 0)]) :=
  wrapper_single_class_label ℕ argsC8 none ["foo.jpg"] (fun _ => 0) fsC8 0
    ((Value.img 0, SaliencyMaskGenerator.specMask 1 1 1 [1]), 0) rfl

/-- The object returned by `build_pretraining_dataset`: either a plain
`ImageFolder` over `args.data_path` with the augmentation object bound as
its per-sample transform, or the `ImageFolderWithAttMap` wrapper. -/
inductive PretrainDataset (α : Type)
  | plain (root : String) (aug : DataAugmentationForMAE)
  | withAtt (ds : AttMapDataset α)

/-- The function `build_pretraining_dataset(args, standard)`.  The folder scan and the
ambient transform/shuffle machinery are supplied by the caller; the bound
transform of the wrapper is the `__call__` of the constructed
`DataAugmentationForMAE`. -/
def build_pretraining_dataset (α : Type) (args : Args) (standard : Bool)
    (applyT : List Transform → α → α) (shuffle : List ℕ → List ℕ)
    (paths : List String) : PretrainDataset α :=
  let transform := DataAugmentationForMAE.build args standard
  if standard then .plain args.data_path transform
  else .withAtt (ImageFolderWithAttMap.build args
    (some (fun image => transform.call applyT shuffle image)) paths)

/-- C9: `build_pretraining_dataset` dispatches on `standard`: with
`standard=True` it builds the plain image-folder dataset whose per-sample
transform call yields `(image_tensor, random_mask)` with the mask drawn from
the random masking generator constructed with `(args.window_size,
args.mask_ratio)`; with `standard=False` it builds the Sample Wrapper whose
bound transform returns only the image tensor. -/
theorem pretraining_dispatch (α : Type) (args : Args)
    (applyT : List Transform → α → α) (shuffle : List ℕ → List ℕ)
    (paths : List String) (image : α) :
    (build_pretraining_dataset α args true applyT shuffle paths =
      .plain args.data_path (DataAugmentationForMAE.build args true) ∧
     (DataAugmentationForMAE.build args true).call applyT shuffle image =
       .ok (.pair
         (applyT (DataAugmentationForMAE.build args true).transform image)
         (RandomMaskingGenerator.call args.window_size.1 args.window_size.2
           args.mask_ratio shuffle))) ∧
    (build_pretraining_dataset α args false applyT shuffle paths =
      .withAtt (ImageFolderWithAttMap.build args
        (some (fun im =>
          (DataAugmentationForMAE.build args false).call applyT shuffle im))
        paths) ∧
     (DataAugmentationForMAE.build args false).call applyT shuffle image =
       .ok (.img
         (applyT (DataAugmentationForMAE.build args false).transform image))) :=
  ⟨⟨rfl, rfl⟩, ⟨rfl, rfl⟩⟩

/-- C10: the pretraining image transform is exactly
`RandomResizedCrop(input_size)`, tensor conversion, normalization — for
every configuration, with no special case for small input sizes — and the
normalization preset is selected from `imagenet_default_mean_and_std` by the
same `pickMean`/`pickStd` selection `build_transform` uses. -/
theorem aug_transform_structure (args : Args) (standard : Bool) :
    (DataAugmentationForMAE.build args standard).transform =
      [Transform.RandomResizedCrop args.input_size, Transform.ToTensor,
       Transform.Normalize (pickMean args.imagenet_default_mean_and_std)
         (pickStd args.imagenet_default_mean_and_std)] ∧
    (args.input_size ≤ 32 →
      (DataAugmentationForMAE.build args standard).transform.head? =
        some (Transform.RandomResizedCrop args.input_size)) :=
  ⟨rfl, fun _ => rfl⟩

/-- Witness for `aug_transform_structure` at a configuration with
`input_size = 32` (where `build_transform` would special-case but the
pretraining transform does not). -/
theorem aug_transform_structure_witness :
    (DataAugmentationForMAE.build { argsC4 with input_size := 32 }
        true).transform.head? =
      some (Transform.RandomResizedCrop 32) :=
  (aug_transform_structure { argsC4 with input_size := 32 } true).2
    (by norm_num)

end SaliencyMae
